import Mathlib

/-!
Shallow embedding of the NightScoutMongoBackup backup core: the two
`performBackup` strategies (`src/lib/services/backup.ts` using mongodump and
`src/lib/services/backup-simple.ts` querying collections one by one), the
shared `BaseBackupService` history bookkeeping, the `S3Service` upload/list
operations, and the `BackupRateLimitPrecondition` cooldown check.

External effects (Date, the filesystem, mongodump, tar, S3, Discord) are
modelled by explicit environment records; machine-level JS numbers appear as
`Nat`/`Int` with the source's own arithmetic made explicit.
-/

namespace NSB

/-! ### JS `Date#toISOString` and string helpers -/

/-- Decimal digit character, as produced by JS number formatting. -/
def digit (n : Nat) : Char := Char.ofNat (48 + n % 10)

/-- Two-digit zero-padded field of `toISOString`. -/
def pad2 (n : Nat) : String := String.mk [digit (n / 10), digit n]

/-- Three-digit zero-padded milliseconds field of `toISOString`. -/
def pad3 (n : Nat) : String := String.mk [digit (n / 100), digit (n / 10), digit n]

/-- Four-digit zero-padded year field of `toISOString`. -/
def pad4 (n : Nat) : String :=
  String.mk [digit (n / 1000), digit (n / 100), digit (n / 10), digit n]

/-- A UTC instant as exposed by the JS `Date` accessors used in the source. -/
structure DateTime where
  year : Nat
  month : Nat
  day : Nat
  hour : Nat
  minute : Nat
  second : Nat
  ms : Nat
deriving Repr, DecidableEq

/-- JS `Date#toISOString`: `YYYY-MM-DDTHH:mm:ss.sssZ`, zero-padded UTC fields. -/
def toISOString (t : DateTime) : String :=
  pad4 t.year ++ "-" ++ pad2 t.month ++ "-" ++ pad2 t.day ++ "T" ++
    pad2 t.hour ++ ":" ++ pad2 t.minute ++ ":" ++ pad2 t.second ++ "." ++
    pad3 t.ms ++ "Z"

/-- JS `String#slice(0, n)` on the strings used here (all ASCII). -/
def sliceTo (s : String) (n : Nat) : String := String.mk (s.data.take n)

/-- Character action of the regex replace `/[T:]/g → '-'`. -/
def dashify (c : Char) : Char := if c = 'T' ∨ c = ':' then '-' else c

/-- BaseBackupService.generateBackupId:
`new Date().toISOString().slice(0, 19).replace(/[T:]/g, '-')`. -/
def generateBackupId (t : DateTime) : String :=
  String.mk ((sliceTo (toISOString t) 19).data.map dashify)

/-- Per-run temporary directory of the mongodump strategy
(backup.ts line 62). -/
def tempDirFor (t : DateTime) : String :=
  "/tmp/nightscout-backup-" ++ generateBackupId t

/-- Node `path.basename` for POSIX paths (no trailing-slash inputs arise in
the pipeline, but trailing slashes are handled as Node does). -/
def basename (p : String) : String :=
  let cs := p.data
  let trimmed := (cs.reverse.dropWhile (fun c => c = '/')).reverse
  if trimmed.isEmpty then (if cs.isEmpty then "" else "/")
  else String.mk ((trimmed.reverse.takeWhile (fun c => c ≠ '/')).reverse)

/-- Node `path.dirname` for the POSIX paths used here (basename without
trailing slashes). -/
def dirname (p : String) : String :=
  let rev := p.data.reverse.dropWhile (fun c => c ≠ '/')
  match rev with
  | [] => "."
  | [_] => "/"
  | _ :: rest => String.mk rest.reverse

/-- Node `path.extname` applied to a base file name: the suffix from the last
dot, empty for dotfiles and names without a dot. -/
def extname (name : String) : String :=
  let cs := name.data
  let revTail := cs.reverse.takeWhile (fun c => c ≠ '.')
  if revTail.length + 1 < cs.length then String.mk ('.' :: revTail.reverse)
  else ""

/-- Lower-cased extension, as computed inside `S3Service.getContentType`. -/
def extLower (fileName : String) : String :=
  String.mk ((extname fileName).data.map Char.toLower)

/-! ### Rate limiter (`BackupRateLimitPrecondition.checkRateLimit`) -/

/-- Result of a precondition run: `this.ok()` or `this.error({message})`. -/
inductive RLResult
  | ok
  | err (message : String)
deriving Repr, DecidableEq

/-- Map#get on the `lastBackupTime` map, modelled as an association list. -/
def lookupUser : List (String × Nat) → String → Option Nat
  | [], _ => none
  | p :: ps, u => if p.1 = u then some p.2 else lookupUser ps u

/-- Map#set on the association-list model of `lastBackupTime`. -/
def setUser : List (String × Nat) → String → Nat → List (String × Nat)
  | [], u, v => [(u, v)]
  | p :: ps, u, v => if p.1 = u then (u, v) :: ps else p :: setUser ps u v

/-- Remaining-time string: `Xm Ys` when minutes > 0, else `Ys`. -/
def fmtRemaining (remainingTime : Nat) : String :=
  let minutes := remainingTime / 60
  let seconds := remainingTime % 60
  if minutes > 0 then toString minutes ++ "m " ++ toString seconds ++ "s"
  else toString seconds ++ "s"

/-- BackupRateLimitPrecondition.checkRateLimit. The configured minutes are
`none` when `parseInt` of the env value yields `NaN` (empty/invalid config):
every comparison against `NaN` is false, so the check always passes. The JS
guard `lastBackup && …` treats a stored `0` timestamp as absent. Returns the
precondition result together with the updated map. -/
def checkRateLimit (rateLimitMinutes : Option Nat)
    (state : List (String × Nat)) (userId : String) (now : Nat) :
    RLResult × List (String × Nat) :=
  match lookupUser state userId, rateLimitMinutes with
  | some t, some m =>
    if t ≠ 0 ∧ (now : Int) - (t : Int) < (m : Int) * 60 * 1000 then
      let remainingTime : Nat :=
        (((m : Int) * 60 * 1000 - ((now : Int) - (t : Int)) + 999) / 1000).toNat
      (RLResult.err ("⏱️ Please wait " ++ fmtRemaining remainingTime ++
        " before running another backup."), state)
    else (RLResult.ok, setUser state userId now)
  | some _, none => (RLResult.ok, setUser state userId now)
  | none, _ => (RLResult.ok, setUser state userId now)

/-! ### S3Service (`src/lib/services/s3.ts`) -/

/-- S3Service.getContentType: content type from the lower-cased extension. -/
def getContentType (fileName : String) : String :=
  let ext := extLower fileName
  if ext = ".json" then "application/json"
  else if ext = ".gz" then "application/gzip"
  else if ext = ".br" then "application/brotli"
  else if ext = ".7z" then "application/x-7z-compressed"
  else "application/octet-stream"

/-- S3UploadResult as returned by `uploadFile`. -/
structure S3UploadResult where
  success : Bool
  s3Url : Option String := none
  key : Option String := none
  bucket : Option String := none
  error : Option String := none
deriving Repr, DecidableEq

/-- Environment of one `uploadFile` call: the wall clock read inside it, the
bucket/region configuration, and the outcome of the local read + S3 `send`
(an exception anywhere in the `try` block carries the error text). -/
structure S3Env where
  now : DateTime
  bucket : String
  region : String
  putOk : Except String Unit
  fileSize : Nat

/-- S3Service.uploadFile: derives `backups/<YYYY-MM-DD>/<basename>` and
uploads; any thrown error yields `success:false` with the error text. -/
def uploadFile (env : S3Env) (filePath : String) : S3UploadResult :=
  let fileName := basename filePath
  let timestamp := sliceTo (toISOString env.now) 10
  let key := "backups/" ++ timestamp ++ "/" ++ fileName
  match env.putOk with
  | Except.ok _ =>
    { success := true
      s3Url := some ("https://" ++ env.bucket ++ ".s3." ++ env.region ++
        ".amazonaws.com/" ++ key)
      key := some key
      bucket := some env.bucket }
  | Except.error e => { success := false, error := some e }

/-- One object of the `ListObjectsV2` response `Contents`. -/
structure S3Object where
  key : String
  size : Nat
  lastModified : Nat
  etag : String
  storageClass : Option String
deriving Repr, DecidableEq

/-- One entry of `S3ListResult.files`. -/
structure S3BackupFile where
  fileName : String
  key : String
  size : Nat
  lastModified : Nat
  downloadUrl : String
  etag : String
  storageClass : Option String
deriving Repr, DecidableEq

/-- S3ListResult as returned by `listBackups`. -/
structure S3ListResult where
  success : Bool
  files : List S3BackupFile
  totalFiles : Nat
  error : Option String := none
deriving Repr, DecidableEq

/-- Boolean string-prefix test at the character-list level. -/
def strPref (s t : String) : Bool := s.data.isPrefixOf t.data

/-- Server side of `ListObjectsV2`: the bucket returns the objects whose key
starts with the requested prefix, capped at `MaxKeys`. -/
def listObjectsV2 (bucketContents : List S3Object) (pre : String)
    (maxKeys : Nat) : List S3Object :=
  (bucketContents.filter (fun o => strPref pre o.key)).take maxKeys

/-- JS `key.split('/').pop() || 'unknown'`. -/
def fileNameOfKey (key : String) : String :=
  let last := (key.splitOn "/").getLastD ""
  if last = "" then "unknown" else last

/-- Mapping of one response object to an `S3BackupFile`
(`listBackups` lines 132-140). -/
def toBackupFile (bucket region : String) (o : S3Object) : S3BackupFile :=
  { fileName := fileNameOfKey o.key
    key := o.key
    size := o.size
    lastModified := o.lastModified
    downloadUrl := "https://" ++ bucket ++ ".s3." ++ region ++
      ".amazonaws.com/" ++ o.key
    etag := String.mk (o.etag.data.filter (fun c => c ≠ '"'))
    storageClass := o.storageClass }

/-- Order produced by the comparator
`(a, b) => b.lastModified - a.lastModified`: newest first. -/
def byTimeDesc (a b : S3BackupFile) : Prop := b.lastModified ≤ a.lastModified

instance : DecidableRel byTimeDesc :=
  fun a b => Nat.decLe b.lastModified a.lastModified

instance : IsTotal S3BackupFile byTimeDesc :=
  ⟨fun a b => Nat.le_total b.lastModified a.lastModified⟩

instance : IsTrans S3BackupFile byTimeDesc :=
  ⟨fun _ _ _ hab hbc => Nat.le_trans hbc hab⟩

/-- Sort newest-first by `lastModified`, the order produced by the source's
comparator sort. -/
def sortByTimeDesc (l : List S3BackupFile) : List S3BackupFile :=
  List.insertionSort byTimeDesc l

/-- S3Service.listBackups. `contents` is the transport outcome: an exception
text, or the bucket objects the `backups/`-prefixed, 1000-capped list request
is answered from (`response.Contents || []`). -/
def listBackups (bucket region : String)
    (contents : Except String (List S3Object)) : S3ListResult :=
  match contents with
  | Except.error e =>
    { success := false, files := [], totalFiles := 0, error := some e }
  | Except.ok objs =>
    let files := (listObjectsV2 objs "backups/" 1000).map
      (toBackupFile bucket region)
    let sorted := sortByTimeDesc files
    { success := true, files := sorted, totalFiles := sorted.length }

/-! ### BaseBackupService (`src/lib/services/backup-base.ts`) -/

/-- BackupStats, the history record type. It has no error-message field. -/
structure BackupStats where
  timestamp : Nat
  collectionsProcessed : List String
  totalDocumentsProcessed : Nat
  success : Bool
  s3Url : Option String := none
  size : Option Nat := none
deriving Repr, DecidableEq

/-- BackupOptions for `performBackup`; `collections = some []` is the JS
call with an explicitly empty (truthy) array, `none` is `undefined`. -/
structure BackupOptions where
  collections : Option (List String) := none
  createThread : Bool := false
  isManual : Bool := false
deriving Repr, DecidableEq

/-- Default collection set of `BaseBackupService`. -/
def defaultCollections : List String :=
  ["entries", "devicestatus", "treatments", "profile"]

/-- JS `options.collections || this.defaultCollections`: an explicitly
supplied array is truthy even when empty. -/
def collectionsToBackup (options : BackupOptions) : List String :=
  options.collections.getD defaultCollections

/-- BaseBackupService.addToHistory: push, then keep the last 10. -/
def addToHistory (history : List BackupStats) (stats : BackupStats) :
    List BackupStats :=
  let h := history ++ [stats]
  if h.length > 10 then h.drop (h.length - 10) else h

/-- BackupResult as returned by `performBackup`; `data` keeps the per
collection document counts of the simple strategy. -/
structure BackupResult where
  success : Bool
  collectionsProcessed : List String
  totalDocumentsProcessed : Nat
  data : List (String × Nat) := []
  error : Option String := none
  timestamp : Nat
  compressedPath : Option String := none
  s3Url : Option String := none
  threadId : Option String := none
deriving Repr, DecidableEq

/-! ### Document-count parsing (`backup.ts` lines 81-88)

The source matches `/(\d{1,10}) document/g` over the combined mongodump
output, parses each captured digit group and sums them. -/

/-- ASCII digit test, as matched by `\d`. -/
def isDigitCh (c : Char) : Bool := decide ('0' ≤ c ∧ c ≤ '9')

/-- Numeric value of a digit string (what `parseInt` yields on a capture). -/
def natOfDigits (ds : List Char) : Nat :=
  ds.foldl (fun acc c => acc * 10 + (c.toNat - 48)) 0

/-- Literal tail the regex requires after the digit group. -/
def documentLit : List Char := ' ' :: "document".data

/-- Attempt to match `\d{len} document` at the head of `cs`. -/
def tryLen (cs : List Char) (len : Nat) : Option (Nat × List Char) :=
  let ds := cs.take len
  if ds.length = len ∧ ds.all isDigitCh ∧
      (cs.drop len).take documentLit.length = documentLit then
    some (natOfDigits ds, cs.drop (len + documentLit.length))
  else none

/-- Greedy-with-backtracking match of `(\d{1,10}) document` at the head:
the longest digit group (at most 10) followed by the literal wins. -/
def firstMatchAt (cs : List Char) : Option (Nat × List Char) :=
  (List.range 10).foldr (fun i acc => tryLen cs (i + 1) <|> acc) none

/-- Global scan of the regex: at each position take the match if one starts
there, else advance one character. `fuel` bounds recursion by the length. -/
def matchAll : List Char → Nat → Nat
  | _, 0 => 0
  | [], _ + 1 => 0
  | cs@(_ :: rest), fuel + 1 =>
    match firstMatchAt cs with
    | some (n, cs') => n + matchAll cs' fuel
    | none => matchAll rest fuel

/-- Sum of all `(\d{1,10}) document` captures in the mongodump output. -/
def parseDocumentCount (s : String) : Nat := matchAll s.data s.data.length

/-! ### Local filesystem model

The mongodump pipeline touches `/tmp` through `mkdir`, mongodump, `tar`,
`fs.rm(dir, {recursive: true})` and `fs.stat`; the filesystem is the list of
paths this run has created and not yet removed. -/

/-- Recursive removal of `dir`: drops the directory itself and everything
below it. -/
def rmRecursive (fs : List String) (dir : String) : List String :=
  fs.filter (fun p => !(p == dir || strPref (dir ++ "/") p))

/-- Existence test backing `fs.stat`. -/
def statOk (fs : List String) (p : String) : Bool := fs.contains p

/-! ### Simple strategy (`src/lib/services/backup-simple.ts`) -/

/-- Environment of one simple-strategy run: per-collection fetch outcomes
(`some n` = `n` documents, `none` = the collection query threw), the thread
creation outcome, and the wall-clock readings. -/
structure SimpleEnv where
  fetch : String → Option Nat
  threadCreate : Option String
  startTime : Nat
  endTime : Nat

/-- Outcome of one simple-strategy invocation: the returned `BackupResult`
and the `BackupStats` entries passed to `addToHistory`. -/
structure SimpleOutcome where
  result : BackupResult
  appended : List BackupStats

/-- Step 2 of the simple strategy: process each collection, skipping the
ones whose query throws (the loop continues on per-collection errors). -/
def processCollections (env : SimpleEnv) :
    List String → List (String × Nat) × List String × Nat
  | [] => ([], [], 0)
  | c :: cs =>
    let (data, processed, total) := processCollections env cs
    match env.fetch c with
    | some n => ((c, n) :: data, c :: processed, n + total)
    | none => (data, processed, total)

/-- BackupService.performBackup of `backup-simple.ts`. -/
def performBackupSimple (env : SimpleEnv) (options : BackupOptions) :
    SimpleOutcome :=
  let cols := collectionsToBackup options
  let threadId : Option String :=
    if options.createThread then env.threadCreate else none
  let (data, processed, total) := processCollections env cols
  if processed ≠ [] then
    { result :=
        { success := true
          collectionsProcessed := processed
          totalDocumentsProcessed := total
          data := data
          timestamp := env.endTime
          threadId := threadId }
      appended :=
        [{ timestamp := env.endTime
           collectionsProcessed := processed
           totalDocumentsProcessed := total
           success := true }] }
  else
    { result :=
        { success := false
          collectionsProcessed := processed
          totalDocumentsProcessed := total
          data := data
          error := some "No collections were successfully backed up"
          timestamp := env.startTime
          threadId := threadId }
      appended :=
        [{ timestamp := env.endTime
           collectionsProcessed := processed
           totalDocumentsProcessed := total
           success := false }] }

/-! ### Mongodump strategy (`src/lib/services/backup.ts`) -/

/-- Environment of one mongodump-strategy run: the start-instant clock
reading that derives the backup id, the thread creation outcome, the
outcomes of the `mongodump` and `tar` child processes, the S3 transport
outcome with the clock/config seen inside `uploadFile`, the size `fs.stat`
would report for an existing file, and the later clock readings. -/
structure DumpEnv where
  startDate : DateTime
  threadCreate : Option String
  mongodump : Except String String
  tar : Except String Unit
  s3Put : Except String Unit
  s3Now : DateTime
  bucket : String
  region : String
  sizeOf : String → Nat
  startTime : Nat
  endTime : Nat

/-- Outcome of one mongodump-strategy invocation: the returned result, the
history entries passed to `addToHistory`, the paths this run leaves on the
local filesystem, and the completion message's compressed-size field
(`some sz` when a thread received the completion message). -/
structure DumpOutcome where
  result : BackupResult
  appended : List BackupStats
  fs : List String
  completeMsgSize : Option (Option Nat)

/-- BackupService.performBackup of `backup.ts`: mongodump → tar → S3 upload
→ cleanup → history. The catch block only removes
`path.dirname(compressedPath)` when `compressedPath` was set, i.e. when the
tar step had succeeded. -/
def performBackupDump (env : DumpEnv) (options : BackupOptions) :
    DumpOutcome :=
  let backupId := generateBackupId env.startDate
  let cols := collectionsToBackup options
  let threadId : Option String :=
    if options.createThread then env.threadCreate else none
  let tempDir := tempDirFor env.startDate
  let dumpDir := tempDir ++ "/dump"
  let fs0 : List String := [tempDir]
  match env.mongodump with
  | Except.error e =>
    { result :=
        { success := false
          collectionsProcessed := []
          totalDocumentsProcessed := 0
          error := some ("MongoDB dump failed: " ++ e)
          timestamp := env.startTime
          threadId := threadId }
      appended :=
        [{ timestamp := env.endTime
           collectionsProcessed := []
           totalDocumentsProcessed := 0
           success := false }]
      fs := fs0
      completeMsgSize := none }
  | Except.ok dumpOutput =>
    let docCount := parseDocumentCount dumpOutput
    let fs1 := fs0 ++ [dumpDir]
    match env.tar with
    | Except.error e =>
      { result :=
          { success := false
            collectionsProcessed := cols
            totalDocumentsProcessed := docCount
            error := some ("Archive creation failed: " ++ e)
            timestamp := env.startTime
            threadId := threadId }
        appended :=
          [{ timestamp := env.endTime
             collectionsProcessed := []
             totalDocumentsProcessed := 0
             success := false }]
        fs := fs1
        completeMsgSize := none }
    | Except.ok _ =>
      let tarPath := tempDir ++ ("/nightscout-backup-" ++ backupId ++ ".tar.gz")
      let fs2 := fs1 ++ [tarPath]
      let s3res := uploadFile
        { now := env.s3Now, bucket := env.bucket, region := env.region,
          putOk := env.s3Put, fileSize := env.sizeOf tarPath } tarPath
      if s3res.success then
        let fs3 := rmRecursive fs2 tempDir
        let compressedSize : Option Nat :=
          if statOk fs3 tarPath then some (env.sizeOf tarPath) else none
        let msg : Option (Option Nat) := threadId.map (fun _ => compressedSize)
        let fs4 := rmRecursive fs3 tempDir
        { result :=
            { success := true
              collectionsProcessed := cols
              totalDocumentsProcessed := docCount
              timestamp := env.endTime
              compressedPath := some tarPath
              s3Url := s3res.s3Url
              threadId := threadId }
          appended :=
            [{ timestamp := env.endTime
               collectionsProcessed := cols
               totalDocumentsProcessed := docCount
               success := true
               s3Url := s3res.s3Url
               size := compressedSize }]
          fs := fs4
          completeMsgSize := msg }
      else
        let fs3 := rmRecursive fs2 (dirname tarPath)
        { result :=
            { success := false
              collectionsProcessed := cols
              totalDocumentsProcessed := docCount
              error := some ("S3 upload failed: " ++ (s3res.error.getD "undefined"))
              timestamp := env.startTime
              compressedPath := some tarPath
              threadId := threadId }
          appended :=
            [{ timestamp := env.endTime
               collectionsProcessed := []
               totalDocumentsProcessed := 0
               success := false }]
          fs := fs3
          completeMsgSize := none }

/-! ### Invocations of either strategy, and the history fold -/

/-- One `performBackup` invocation of either export-strategy variant. -/
inductive Invocation
  | dump (env : DumpEnv) (options : BackupOptions)
  | simple (env : SimpleEnv) (options : BackupOptions)

/-- History entries an invocation passes to `addToHistory`. -/
def appendedOf : Invocation → List BackupStats
  | Invocation.dump env options => (performBackupDump env options).appended
  | Invocation.simple env options => (performBackupSimple env options).appended

/-- Requested collection list of an invocation. -/
def requestedOf : Invocation → Option (List String)
  | Invocation.dump _ options => options.collections
  | Invocation.simple _ options => options.collections

/-- History evolution across a sequence of invocations. -/
def runAll : List Invocation → List BackupStats → List BackupStats
  | [], h => h
  | i :: is, h => runAll is ((appendedOf i).foldl addToHistory h)

/-! ### Helper lemmas -/

theorem lookupUser_setUser (state : List (String × Nat)) (u : String) (v : Nat) :
    lookupUser (setUser state u v) u = some v := by
  induction state with
  | nil => simp [setUser, lookupUser]
  | cons p ps ih =>
    by_cases h : p.1 = u <;> simp [setUser, lookupUser, h, ih]

theorem sliceTo_toISOString_ten (t : DateTime) :
    sliceTo (toISOString t) 10 =
      pad4 t.year ++ "-" ++ pad2 t.month ++ "-" ++ pad2 t.day := rfl

/-! ### C7: upload key derivation -/

/-- C7. For every successful upload, the object key returned by `uploadFile`
is `backups/<YYYY-MM-DD of the UTC clock read inside the call>/<basename of
the local path>`: date-partitioned by UTC day, ending in the file's base
name. -/
theorem c7_upload_key (env : S3Env) (filePath : String)
    (h : (uploadFile env filePath).success = true) :
    (uploadFile env filePath).key =
      some ("backups/" ++
        (pad4 env.now.year ++ "-" ++ pad2 env.now.month ++ "-" ++ pad2 env.now.day) ++
        "/" ++ basename filePath) := by
  cases hp : env.putOk with
  | ok u => simp [uploadFile, hp, sliceTo_toISOString_ten]
  | error e => simp [uploadFile, hp] at h

/-- Concrete upload environment for the C7 witness. -/
def uploadEnvW : S3Env :=
  { now := ⟨2025, 3, 7, 1, 2, 3, 4⟩, bucket := "b", region := "r",
    putOk := Except.ok (), fileSize := 0 }

/-- Witness for C7 at a concrete environment and path. -/
theorem c7_upload_key_witness :
    (uploadFile uploadEnvW "/tmp/a/b.tar.gz").success = true ∧
    (uploadFile uploadEnvW "/tmp/a/b.tar.gz").key =
      some ("backups/" ++ (pad4 2025 ++ "-" ++ pad2 3 ++ "-" ++ pad2 7) ++
        "/" ++ basename "/tmp/a/b.tar.gz") :=
  ⟨rfl, c7_upload_key uploadEnvW "/tmp/a/b.tar.gz" rfl⟩

/-! ### C6: content-type mapping -/

/-- C6 counterexample. The mapping is not `octet-stream` on every extension
outside `.json`/`.gz`/`.br`: the source also maps `.7z` to
`application/x-7z-compressed`. -/
theorem c6_counterexample :
    getContentType "backup.7z" = "application/x-7z-compressed" ∧
    getContentType "backup.7z" ≠ "application/octet-stream" :=
  ⟨rfl, by decide⟩

/-- C6 amended. The content-type derivation is a total function of the
lower-cased file extension mapping `.json`, `.gz`, `.br` and `.7z` to their
specific types and every other extension (including none) to
`application/octet-stream`. -/
theorem c6_amended :
    (∀ f, getContentType f = "application/json" ∨
      getContentType f = "application/gzip" ∨
      getContentType f = "application/brotli" ∨
      getContentType f = "application/x-7z-compressed" ∨
      getContentType f = "application/octet-stream") ∧
    (∀ f, extLower f = ".json" → getContentType f = "application/json") ∧
    (∀ f, extLower f = ".gz" → getContentType f = "application/gzip") ∧
    (∀ f, extLower f = ".br" → getContentType f = "application/brotli") ∧
    (∀ f, extLower f = ".7z" → getContentType f = "application/x-7z-compressed") ∧
    (∀ f, extLower f ≠ ".json" → extLower f ≠ ".gz" → extLower f ≠ ".br" →
      extLower f ≠ ".7z" → getContentType f = "application/octet-stream") := by
  refine ⟨fun f => ?_, fun f h => ?_, fun f h => ?_, fun f h => ?_,
    fun f h => ?_, fun f h1 h2 h3 h4 => ?_⟩
  · simp only [getContentType]; split_ifs <;> tauto
  · simp [getContentType, h]
  · simp [getContentType, h]
  · simp [getContentType, h]
  · simp [getContentType, h]
  · simp [getContentType, h1, h2, h3, h4]

/-- Witness for C6 amended at concrete file names. -/
theorem c6_amended_witness :
    getContentType "x.JSON" = "application/json" ∧
    getContentType "notes.txt" = "application/octet-stream" :=
  ⟨c6_amended.2.1 "x.JSON" (by decide),
   c6_amended.2.2.2.2.2 "notes.txt" (by decide) (by decide) (by decide) (by decide)⟩

/-! ### C5: rate limiter -/

/-- C5 counterexample. A user with a recorded last-invocation time of `0`
and a positive cooldown, called well inside the window, is let through: the
JS guard `lastBackup && …` treats a stored `0` timestamp as absent, so the
check returns Ok where the claim requires Throttled. -/
theorem c5_counterexample :
    (checkRateLimit (some 5) [("u1", 0)] "u1" 10000).1 = RLResult.ok ∧
    lookupUser [("u1", 0)] "u1" = some 0 ∧
    ((10000 : Int) - (0 : Int) < (5 : Int) * 60 * 1000) :=
  ⟨rfl, rfl, by decide⟩

/-- C5 amended. The check returns Ok (recording `now` for the user) exactly
when the cooldown configuration is empty/unparseable, or the user has no
recorded time, or the recorded time is the zero timestamp (treated as
absent by the code's falsy guard), or `now` minus the recorded time is at
least the cooldown; otherwise it returns Throttled with the remaining
seconds rounded up, formatted `Xm Ys` when minutes are positive and `Ys`
otherwise — with a five-minute window a second call 10 seconds later is
throttled with `4m 50s`. -/
theorem c5_amended :
    (∀ cfg state u now, ((checkRateLimit cfg state u now).1 = RLResult.ok ↔
        cfg = none ∨ lookupUser state u = none ∨ lookupUser state u = some 0 ∨
        (∃ t m, lookupUser state u = some t ∧ cfg = some m ∧
          (m : Int) * 60 * 1000 ≤ (now : Int) - (t : Int)))) ∧
    (∀ cfg state u now, (checkRateLimit cfg state u now).1 = RLResult.ok →
        lookupUser (checkRateLimit cfg state u now).2 u = some now) ∧
    (∀ cfg state u now msg,
        (checkRateLimit cfg state u now).1 = RLResult.err msg →
        (checkRateLimit cfg state u now).2 = state) ∧
    (∀ t0 : Nat, t0 ≠ 0 →
        (checkRateLimit (some 5) [("u1", t0)] "u1" (t0 + 10000)).1 =
          RLResult.err "⏱️ Please wait 4m 50s before running another backup.") ∧
    (∀ t0 : Nat, t0 ≠ 0 →
        (checkRateLimit (some 1) [("u1", t0)] "u1" (t0 + 10000)).1 =
          RLResult.err "⏱️ Please wait 50s before running another backup.") := by
  refine ⟨fun cfg state u now => ?_, fun cfg state u now h => ?_,
    fun cfg state u now msg h => ?_, fun t0 h0 => ?_, fun t0 h0 => ?_⟩
  · cases hl : lookupUser state u with
    | none => simp [checkRateLimit, hl]
    | some t =>
      cases cfg with
      | none => simp [checkRateLimit, hl]
      | some m =>
        by_cases hc : t ≠ 0 ∧ (now : Int) - (t : Int) < (m : Int) * 60 * 1000
        · simp only [checkRateLimit, hl, if_pos hc]
          constructor
          · intro habs; cases habs
          · rintro (h | h | h | ⟨t', m', ht', hm', hge⟩)
            · cases h
            · cases h
            · cases h; exact absurd rfl hc.1
            · cases ht'; cases hm'; omega
        · simp only [checkRateLimit, hl, if_neg hc]
          constructor
          · intro _
            rcases Decidable.not_and_iff_or_not.mp hc with h | h
            · have ht : t = 0 := by omega
              subst ht; exact Or.inr (Or.inr (Or.inl rfl))
            · exact Or.inr (Or.inr (Or.inr ⟨t, m, rfl, rfl, by omega⟩))
          · intro _; trivial
  · cases hl : lookupUser state u with
    | none => simp [checkRateLimit, hl, lookupUser_setUser]
    | some t =>
      cases cfg with
      | none => simp [checkRateLimit, hl, lookupUser_setUser]
      | some m =>
        by_cases hc : t ≠ 0 ∧ (now : Int) - (t : Int) < (m : Int) * 60 * 1000
        · simp [checkRateLimit, hl, if_pos hc] at h
        · simp [checkRateLimit, hl, if_neg hc, lookupUser_setUser]
  · cases hl : lookupUser state u with
    | none => simp [checkRateLimit, hl] at h
    | some t =>
      cases cfg with
      | none => simp [checkRateLimit, hl] at h
      | some m =>
        by_cases hc : t ≠ 0 ∧ (now : Int) - (t : Int) < (m : Int) * 60 * 1000
        · simp [checkRateLimit, hl, if_pos hc]
        · simp [checkRateLimit, hl, if_neg hc] at h
  · have hl : lookupUser [("u1", t0)] "u1" = some t0 := by simp [lookupUser]
    have hd : ((t0 + 10000 : Nat) : Int) - (t0 : Int) = 10000 := by
      push_cast; ring
    have hc : t0 ≠ 0 ∧ ((t0 + 10000 : Nat) : Int) - (t0 : Int) <
        ((5 : Nat) : Int) * 60 * 1000 := ⟨h0, by rw [hd]; norm_num⟩
    simp only [checkRateLimit, hl, if_pos hc, hd]
    norm_num
    rw [if_neg h0]
    rfl
  · have hl : lookupUser [("u1", t0)] "u1" = some t0 := by simp [lookupUser]
    have hd : ((t0 + 10000 : Nat) : Int) - (t0 : Int) = 10000 := by
      push_cast; ring
    have hc : t0 ≠ 0 ∧ ((t0 + 10000 : Nat) : Int) - (t0 : Int) <
        ((1 : Nat) : Int) * 60 * 1000 := ⟨h0, by rw [hd]; norm_num⟩
    simp only [checkRateLimit, hl, if_pos hc, hd]
    norm_num
    rw [if_neg h0]
    rfl

/-- Witness for C5 amended: a fresh user is let through and recorded, and a
user 10 seconds into a five-minute window is throttled with `4m 50s`. -/
theorem c5_amended_witness :
    (checkRateLimit (some 5) ([] : List (String × Nat)) "u2" 1000).1 =
      RLResult.ok ∧
    lookupUser (checkRateLimit (some 5) [] "u2" 1000).2 "u2" = some 1000 ∧
    (checkRateLimit (some 5) [("u1", 77)] "u1" 10077).1 =
      RLResult.err "⏱️ Please wait 4m 50s before running another backup." :=
  ⟨(c5_amended.1 (some 5) [] "u2" 1000).mpr (Or.inr (Or.inl rfl)),
   c5_amended.2.1 (some 5) [] "u2" 1000 rfl,
   c5_amended.2.2.2.1 77 (by decide)⟩

/-! ### C1: exactly one history entry per invocation, bounded history -/

theorem performBackupDump_appended_len (env : DumpEnv)
    (options : BackupOptions) :
    (performBackupDump env options).appended.length = 1 := by
  unfold performBackupDump
  rcases henv : env.mongodump with e | out <;> simp only [henv]
  · rfl
  · rcases htar : env.tar with e | u <;> simp only [htar]
    · rfl
    · split <;> rfl

theorem performBackupSimple_appended_len (env : SimpleEnv)
    (options : BackupOptions) :
    (performBackupSimple env options).appended.length = 1 := by
  unfold performBackupSimple
  rcases hp : processCollections env (collectionsToBackup options) with
    ⟨data, processed, total⟩
  simp only [hp]
  split <;> rfl

theorem appendedOf_len (i : Invocation) : (appendedOf i).length = 1 := by
  cases i with
  | dump env options => exact performBackupDump_appended_len env options
  | simple env options => exact performBackupSimple_appended_len env options

theorem addToHistory_length (h : List BackupStats) (e : BackupStats) :
    (addToHistory h e).length = min 10 (h.length + 1) := by
  simp only [addToHistory]
  split <;> (simp_all [List.length_drop, List.length_append]; try omega)

theorem runAll_length (invs : List Invocation) :
    ∀ h : List BackupStats, h.length ≤ 10 →
      (runAll invs h).length = min 10 (h.length + invs.length) := by
  induction invs with
  | nil => intro h hle; simp [runAll]; omega
  | cons i is ih =>
    intro h hle
    obtain ⟨e, he⟩ := List.length_eq_one.mp (appendedOf_len i)
    have hstep : (addToHistory h e).length = min 10 (h.length + 1) :=
      addToHistory_length h e
    simp only [runAll, he, List.foldl_cons, List.foldl_nil]
    rw [ih (addToHistory h e) (by omega), hstep]
    simp only [List.length_cons]
    omega

/-- C1. Each `performBackup` invocation (either export strategy) appends
exactly one history entry; after `n` invocations from an empty history the
history length is `min 10 n`; and a full history evicts its oldest entry on
append. -/
theorem c1_history_bound :
    (∀ i : Invocation, (appendedOf i).length = 1) ∧
    (∀ invs : List Invocation, (runAll invs []).length = min 10 invs.length) ∧
    (∀ (h : List BackupStats) (e : BackupStats), h.length = 10 →
      addToHistory h e = h.tail ++ [e]) := by
  refine ⟨appendedOf_len, fun invs => ?_, fun h e h10 => ?_⟩
  · have := runAll_length invs [] (by simp)
    simpa using this
  · simp only [addToHistory]
    rw [if_pos (by simp [List.length_append, h10])]
    simp only [List.length_append, List.length_cons, h10]
    cases h with
    | nil => simp at h10
    | cons x xs => simp

/-- History entry used in concrete C1 instances. -/
def stW : BackupStats :=
  { timestamp := 0, collectionsProcessed := [], totalDocumentsProcessed := 0,
    success := false }

/-- Simple-strategy environment where every collection query throws. -/
def simpleEnvW : SimpleEnv :=
  { fetch := fun _ => none, threadCreate := none, startTime := 0, endTime := 0 }

/-- A concrete invocation of the simple strategy. -/
def invW : Invocation := Invocation.simple simpleEnvW {}

/-- Witness for C1 at concrete invocations and a concrete full history. -/
theorem c1_history_bound_witness :
    (appendedOf invW).length = 1 ∧
    (runAll [invW, invW] []).length = min 10 2 ∧
    addToHistory (List.replicate 10 stW) stW =
      (List.replicate 10 stW).tail ++ [stW] :=
  ⟨c1_history_bound.1 invW, c1_history_bound.2.1 [invW, invW],
   c1_history_bound.2.2 (List.replicate 10 stW) stW (by simp)⟩

/-! ### C3: zero collections processed is a fatal error -/

theorem processCollections_none (env : SimpleEnv) (cols : List String)
    (h : ∀ c ∈ cols, env.fetch c = none) :
    processCollections env cols = ([], [], 0) := by
  induction cols with
  | nil => rfl
  | cons c cs ih =>
    have hc : env.fetch c = none := h c (by simp)
    have ih' := ih (fun x hx => h x (by simp [hx]))
    simp [processCollections, ih', hc]

/-- C3. Under the per-collection strategy, when the export phase processes
zero collections the outcome is `success:false` with error message exactly
`No collections were successfully backed up`, the result references no
artifact URL (this strategy contains no upload step at all), and the
recorded history entry is a failure. -/
theorem c3_zero_collections (env : SimpleEnv) (options : BackupOptions)
    (h : ∀ c ∈ collectionsToBackup options, env.fetch c = none) :
    (performBackupSimple env options).result.success = false ∧
    (performBackupSimple env options).result.error =
      some "No collections were successfully backed up" ∧
    (performBackupSimple env options).result.s3Url = none ∧
    (performBackupSimple env options).appended.map
      (fun e => (e.success, e.s3Url)) = [(false, none)] := by
  have hp := processCollections_none env _ h
  simp [performBackupSimple, hp]

/-- Witness for C3: a run where every collection query throws. -/
theorem c3_zero_collections_witness :
    (performBackupSimple simpleEnvW {}).result.success = false ∧
    (performBackupSimple simpleEnvW {}).result.error =
      some "No collections were successfully backed up" ∧
    (performBackupSimple simpleEnvW {}).result.s3Url = none ∧
    (performBackupSimple simpleEnvW {}).appended.map
      (fun e => (e.success, e.s3Url)) = [(false, none)] :=
  c3_zero_collections simpleEnvW {} (fun _ _ => rfl)

/-! ### C2: history-entry invariant -/

/-- Mongodump-strategy environment in which every external step succeeds. -/
def dumpEnvOkW : DumpEnv :=
  { startDate := ⟨2025, 1, 2, 3, 4, 5, 6⟩, threadCreate := none,
    mongodump := Except.ok "", tar := Except.ok (), s3Put := Except.ok (),
    s3Now := ⟨2025, 1, 2, 3, 4, 5, 6⟩, bucket := "b", region := "r",
    sizeOf := fun _ => 0, startTime := 0, endTime := 1 }

/-- C2 counterexample. A mongodump-strategy request with an explicitly empty
collection list (truthy in JS, so not replaced by the defaults) succeeds and
records a history entry with `success:true` and an empty
`collectionsProcessed`, violating the claimed invariant. -/
theorem c2_counterexample :
    (performBackupDump dumpEnvOkW { collections := some [] }).appended.map
      (fun e => (e.success, e.collectionsProcessed)) = [(true, [])] := by
  rfl

/-- C2 amended. Every recorded history entry satisfies: the record type
carries no error-message field at all; if `success` is true and the request
did not explicitly supply an empty collection list, `collectionsProcessed`
is non-empty; if `success` is false, `s3Url` is absent. -/
theorem c2_amended (inv : Invocation) (hreq : requestedOf inv ≠ some [])
    (e : BackupStats) (he : e ∈ appendedOf inv) :
    (e.success = true → e.collectionsProcessed ≠ []) ∧
    (e.success = false → e.s3Url = none) := by
  cases inv with
  | dump env options =>
    have hcols : collectionsToBackup options ≠ [] := by
      cases hco : options.collections with
      | none => simp [collectionsToBackup, hco, defaultCollections]
      | some cs =>
        cases cs with
        | nil => exact absurd hco (by simpa [requestedOf] using hreq)
        | cons x xs => simp [collectionsToBackup, hco]
    simp only [appendedOf] at he
    unfold performBackupDump at he
    rcases henv : env.mongodump with er | out <;> simp only [henv] at he
    · simp at he; subst he; simp
    · rcases htar : env.tar with er | u <;> simp only [htar] at he
      · simp at he; subst he; simp
      · split at he
        · simp at he; subst he; simp [hcols]
        · simp at he; subst he; simp
  | simple env options =>
    simp only [appendedOf] at he
    unfold performBackupSimple at he
    rcases hp : processCollections env (collectionsToBackup options) with
      ⟨data, processed, total⟩
    simp only [hp] at he
    by_cases hproc : processed ≠ []
    · rw [if_pos hproc] at he; simp at he; subst he; simp [hproc]
    · rw [if_neg hproc] at he; simp at he; subst he; simp

/-- Simple-strategy environment where every collection holds 5 documents. -/
def simpleEnvOkW : SimpleEnv :=
  { fetch := fun _ => some 5, threadCreate := none, startTime := 0,
    endTime := 7 }

/-- A concrete successful invocation of the simple strategy. -/
def invOkW : Invocation := Invocation.simple simpleEnvOkW {}

/-- The history entry `invOkW` records. -/
def entryOkW : BackupStats :=
  { timestamp := 7, collectionsProcessed := defaultCollections,
    totalDocumentsProcessed := 20, success := true }

/-- Witness for C2 amended at a concrete successful run. -/
theorem c2_amended_witness :
    (entryOkW.success = true → entryOkW.collectionsProcessed ≠ []) ∧
    (entryOkW.success = false → entryOkW.s3Url = none) :=
  c2_amended invOkW (by decide) entryOkW (by decide)

/-! ### C4: temporary-directory cleanup on failure -/

/-- Mongodump-strategy environment whose `mongodump` child process fails
after the temporary directory was created. -/
def dumpEnvFailW : DumpEnv :=
  { startDate := ⟨2025, 6, 7, 8, 9, 10, 11⟩, threadCreate := none,
    mongodump := Except.error "connection refused", tar := Except.ok (),
    s3Put := Except.ok (), s3Now := ⟨2025, 6, 7, 8, 9, 10, 11⟩,
    bucket := "b", region := "r", sizeOf := fun _ => 0,
    startTime := 0, endTime := 1 }

/-- C4. Evaluation at the failing input: when mongodump fails after the
temporary directory was created, the run fails but the temporary directory
is still present when `performBackup` returns — the catch-block cleanup is
guarded by `compressedPath`, which is only set once the tar step succeeded,
so this failure path never removes the directory. -/
theorem c4_dangling_tempdir :
    (performBackupDump dumpEnvFailW {}).result.success = false ∧
    (performBackupDump dumpEnvFailW {}).result.error =
      some "MongoDB dump failed: connection refused" ∧
    (performBackupDump dumpEnvFailW {}).fs.contains
      (tempDirFor dumpEnvFailW.startDate) = true :=
  ⟨rfl, rfl, rfl⟩

/-! ### C10: the success path removes the archive before reading its size -/

theorem strPref_append_slash (a b : String) :
    strPref (a ++ "/") (a ++ ("/" ++ b)) = true := by
  simp only [strPref, String.data_append]
  rw [List.isPrefixOf_iff_prefix]
  exact ⟨b.data, by simp⟩

theorem statOk_rmRecursive (fs : List String) (dir p : String)
    (h : strPref (dir ++ "/") p = true) :
    statOk (rmRecursive fs dir) p = false := by
  by_cases hm : p ∈ rmRecursive fs dir
  · have := (List.mem_filter.mp hm).2
    simp [h] at this
  · simp [statOk, List.contains, List.elem_eq_mem, hm]

theorem strPref_tar (tempDir bid : String) :
    strPref (tempDir ++ "/")
      (tempDir ++ ("/nightscout-backup-" ++ bid ++ ".tar.gz")) = true := by
  have hsplit : ("/nightscout-backup-" ++ bid ++ ".tar.gz" : String) =
      "/" ++ ("nightscout-backup-" ++ bid ++ ".tar.gz") := by
    rw [show ("/nightscout-backup-" : String) = "/" ++ "nightscout-backup-"
      from rfl, String.append_assoc, String.append_assoc, String.append_assoc]
  rw [hsplit]
  exact strPref_append_slash tempDir _

theorem statOk_rm_tar (fs : List String) (tempDir bid : String) :
    statOk (rmRecursive fs tempDir)
      (tempDir ++ ("/nightscout-backup-" ++ bid ++ ".tar.gz")) = false :=
  statOk_rmRecursive fs _ _ (strPref_tar tempDir bid)

/-- C10. On the mongodump strategy's success path, the temporary directory
(and with it the archive) is removed before the archive's size is read, so
the `fs.stat` lookup always fails: the success history entry's `size` field
is absent, and the completion message (when a thread exists) carries no
compressed size. -/
theorem c10_size_absent (env : DumpEnv) (options : BackupOptions)
    (out : String) (h1 : env.mongodump = Except.ok out)
    (h2 : env.tar = Except.ok ()) (h3 : env.s3Put = Except.ok ()) :
    (performBackupDump env options).result.success = true ∧
    (∀ e ∈ (performBackupDump env options).appended, e.size = none) ∧
    ((performBackupDump env options).completeMsgSize = none ∨
      (performBackupDump env options).completeMsgSize = some none) := by
  unfold performBackupDump
  simp only [h1, h2, h3, uploadFile, statOk_rm_tar]
  rcases hth : (if options.createThread then env.threadCreate else none) with
    _ | tid <;> simp [hth]

/-- Witness for C10 at a concrete all-success environment. -/
theorem c10_size_absent_witness :
    (performBackupDump dumpEnvOkW {}).result.success = true ∧
    (∀ e ∈ (performBackupDump dumpEnvOkW {}).appended, e.size = none) ∧
    ((performBackupDump dumpEnvOkW {}).completeMsgSize = none ∨
      (performBackupDump dumpEnvOkW {}).completeMsgSize = some none) :=
  c10_size_absent dumpEnvOkW {} "" rfl rfl rfl

/-! ### C9: temporary-directory collision -/

theorem dashify_digit (n : Nat) : dashify (digit n) = digit n := by
  have h : n % 10 < 10 := Nat.mod_lt _ (by norm_num)
  unfold digit dashify
  generalize hk : n % 10 = k at h
  interval_cases k <;> decide

theorem digit_inj {a b : Nat} (h : digit a = digit b) : a % 10 = b % 10 := by
  have ha : a % 10 < 10 := Nat.mod_lt _ (by norm_num)
  have hb : b % 10 < 10 := Nat.mod_lt _ (by norm_num)
  unfold digit at h
  generalize hx : a % 10 = x at h ha ⊢
  generalize hy : b % 10 = y at h hb ⊢
  interval_cases x <;> interval_cases y <;> revert h <;> decide

theorem generateBackupId_data (t : DateTime) :
    (generateBackupId t).data =
      [digit (t.year / 1000), digit (t.year / 100), digit (t.year / 10),
       digit t.year, '-', digit (t.month / 10), digit t.month, '-',
       digit (t.day / 10), digit t.day, '-', digit (t.hour / 10),
       digit t.hour, '-', digit (t.minute / 10), digit t.minute, '-',
       digit (t.second / 10), digit t.second] := by
  have h : (sliceTo (toISOString t) 19).data =
      [digit (t.year / 1000), digit (t.year / 100), digit (t.year / 10),
       digit t.year, '-', digit (t.month / 10), digit t.month, '-',
       digit (t.day / 10), digit t.day, 'T', digit (t.hour / 10),
       digit t.hour, ':', digit (t.minute / 10), digit t.minute, ':',
       digit (t.second / 10), digit t.second] := rfl
  have hT : dashify 'T' = '-' := rfl
  have hC : dashify ':' = '-' := rfl
  have hD : dashify '-' = '-' := rfl
  simp [generateBackupId, h, dashify_digit, hT, hC, hD]

/-- C9 counterexample. Two runs started 800 milliseconds apart within the
same second are distinct invocations, yet the backup id truncates the
timestamp to whole seconds, so their temporary directory paths coincide. -/
theorem c9_counterexample :
    (⟨2025, 1, 2, 3, 4, 5, 100⟩ : DateTime) ≠
      (⟨2025, 1, 2, 3, 4, 5, 900⟩ : DateTime) ∧
    tempDirFor ⟨2025, 1, 2, 3, 4, 5, 100⟩ =
      tempDirFor ⟨2025, 1, 2, 3, 4, 5, 900⟩ :=
  ⟨by decide, rfl⟩

/-- C9 amended. Temporary-directory paths of two runs are distinct whenever
the runs' start timestamps differ at whole-second granularity (the id drops
milliseconds); runs started within the same second share a path. -/
theorem c9_amended (t1 t2 : DateTime)
    (hy1 : t1.year < 10000) (hmo1 : t1.month < 100) (hd1 : t1.day < 100)
    (hh1 : t1.hour < 100) (hmi1 : t1.minute < 100) (hs1 : t1.second < 100)
    (hy2 : t2.year < 10000) (hmo2 : t2.month < 100) (hd2 : t2.day < 100)
    (hh2 : t2.hour < 100) (hmi2 : t2.minute < 100) (hs2 : t2.second < 100)
    (hne : (t1.year, t1.month, t1.day, t1.hour, t1.minute, t1.second) ≠
      (t2.year, t2.month, t2.day, t2.hour, t2.minute, t2.second)) :
    tempDirFor t1 ≠ tempDirFor t2 := by
  intro heq
  apply hne
  have hdata : (tempDirFor t1).data = (tempDirFor t2).data := by rw [heq]
  simp only [tempDirFor, String.data_append] at hdata
  have hid : (generateBackupId t1).data = (generateBackupId t2).data :=
    List.append_cancel_left hdata
  rw [generateBackupId_data, generateBackupId_data] at hid
  simp only [List.cons.injEq, and_true] at hid
  obtain ⟨e1, e2, e3, e4, _, e5, e6, _, e7, e8, _, e9, e10, _, e11, e12, _,
    e13, e14⟩ := hid
  have g1 := digit_inj e1
  have g2 := digit_inj e2
  have g3 := digit_inj e3
  have g4 := digit_inj e4
  have g5 := digit_inj e5
  have g6 := digit_inj e6
  have g7 := digit_inj e7
  have g8 := digit_inj e8
  have g9 := digit_inj e9
  have g10 := digit_inj e10
  have g11 := digit_inj e11
  have g12 := digit_inj e12
  have g13 := digit_inj e13
  have g14 := digit_inj e14
  have hy : t1.year = t2.year := by omega
  have hmo : t1.month = t2.month := by omega
  have hd : t1.day = t2.day := by omega
  have hh : t1.hour = t2.hour := by omega
  have hmi : t1.minute = t2.minute := by omega
  have hs : t1.second = t2.second := by omega
  simp [hy, hmo, hd, hh, hmi, hs]

/-- Witness for C9 amended: runs one second apart get distinct paths. -/
theorem c9_amended_witness :
    tempDirFor ⟨2025, 1, 2, 3, 4, 5, 0⟩ ≠ tempDirFor ⟨2025, 1, 2, 3, 4, 6, 0⟩ :=
  c9_amended ⟨2025, 1, 2, 3, 4, 5, 0⟩ ⟨2025, 1, 2, 3, 4, 6, 0⟩
    (by norm_num) (by norm_num) (by norm_num) (by norm_num) (by norm_num)
    (by norm_num) (by norm_num) (by norm_num) (by norm_num) (by norm_num)
    (by norm_num) (by norm_num) (by decide)

/-! ### C8: artifact listing -/

theorem mem_sortByTimeDesc {f : S3BackupFile} {l : List S3BackupFile} :
    f ∈ sortByTimeDesc l ↔ f ∈ l :=
  (List.perm_insertionSort byTimeDesc l).mem_iff

/-- C8. `listBackups` returns only objects under the `backups/` prefix,
sorted newest-first by `lastModified`, with `totalFiles` the length of the
returned list; a bucket with no `backups/` objects yields
`success:true` with an empty list and zero total, not an error. -/
theorem c8_list_backups :
    (∀ (b r : String) (objs : List S3Object) (f : S3BackupFile),
        f ∈ (listBackups b r (Except.ok objs)).files →
        strPref "backups/" f.key = true) ∧
    (∀ (b r : String) (c : Except String (List S3Object)),
        List.Sorted byTimeDesc (listBackups b r c).files) ∧
    (∀ (b r : String) (c : Except String (List S3Object)),
        (listBackups b r c).totalFiles = (listBackups b r c).files.length) ∧
    (∀ (b r : String) (objs : List S3Object),
        (∀ o ∈ objs, strPref "backups/" o.key = false) →
        listBackups b r (Except.ok objs) =
          { success := true, files := [], totalFiles := 0 }) := by
  have hfilnil : ∀ (objs : List S3Object),
      (∀ o ∈ objs, strPref "backups/" o.key = false) →
      objs.filter (fun o => strPref "backups/" o.key) = [] :=
    fun objs hnone =>
      List.filter_eq_nil_iff.mpr (fun o ho => by simp [hnone o ho])
  refine ⟨fun b r objs f hf => ?_, fun b r c => ?_, fun b r c => ?_,
    fun b r objs hnone => ?_⟩
  · simp only [listBackups] at hf
    rw [mem_sortByTimeDesc] at hf
    obtain ⟨o, ho, rfl⟩ := List.mem_map.mp hf
    have ho' := List.mem_of_mem_take ho
    exact (List.mem_filter.mp ho').2
  · cases c with
    | error e => simp [listBackups, List.Sorted]
    | ok objs =>
      simpa [listBackups, sortByTimeDesc] using
        List.sorted_insertionSort byTimeDesc
          ((listObjectsV2 objs "backups/" 1000).map (toBackupFile b r))
  · cases c <;> rfl
  · simp [listBackups, listObjectsV2, hfilnil objs hnone, sortByTimeDesc,
      List.insertionSort]

/-- A concrete bucket object under the `backups/` prefix. -/
def objW : S3Object :=
  { key := "backups/2025-01-02/x.tar.gz", size := 1, lastModified := 5,
    etag := "", storageClass := none }

/-- Witness for C8: an empty bucket lists successfully, and a listed file's
key carries the `backups/` prefix. -/
theorem c8_list_backups_witness :
    listBackups "b" "r" (Except.ok []) =
      { success := true, files := [], totalFiles := 0 } ∧
    strPref "backups/" (toBackupFile "b" "r" objW).key = true :=
  ⟨c8_list_backups.2.2.2 "b" "r" []
      (fun o ho => absurd ho (List.not_mem_nil o)),
   c8_list_backups.1 "b" "r" [objW] (toBackupFile "b" "r" objW)
     (by
       rw [show (listBackups "b" "r" (Except.ok [objW])).files =
         [toBackupFile "b" "r" objW] from rfl]
       exact List.mem_singleton.mpr rfl)⟩

end NSB
